import Mathlib

/-!
Verification of the supervision and execution protocol of the multi-agent
pipeline (supervisor, worker state machine, shared status protocol).

Each section embeds the relevant Python functions as Lean definitions and
proves (or refutes) the corresponding natural-language claims.  The
embeddings are translated from the repository source:

  * agents/worker-agent/src/worker_agent/status_manager.py
  * agents/shared/src/worker_shared/base_status.py
  * agents/worker-agent/src/worker_agent/github_manager.py
  * agents/worker-agent/src/worker_agent/agent.py
  * agents/manager-agent/src/manager_agent/escalation_handler.py
  * agents/manager-agent/src/manager_agent/worker_pool.py
  * apps/roblox-animation/src/animation_tools/analyze_animation.py
  * agents/animation-worker/src/animation_worker/agent.py
-/

/-! ## Filesystem model for status persistence (C1)

A filesystem is an association list from paths to file contents.  A
high-level file operation is either a whole-file write or a rename.  To
reason about what a concurrent reader can observe, each operation is
expanded into micro-steps: a whole-file write passes through every prefix
of the new contents (a torn write), while a rename is a single atomic
step.  The intermediate filesystem states along a trace are exactly the
states a concurrent reader may observe. -/

/-- A filesystem: association list from path to file contents. -/
abbrev FileSys := List (String × String)

/-- Look up the contents of a path. -/
def fsGet (fs : FileSys) (p : String) : Option String :=
  match fs with
  | [] => none
  | (q, c) :: rest => if q = p then some c else fsGet rest p

/-- Set the contents of a path (replacing any previous entry). -/
def fsSet (fs : FileSys) (p c : String) : FileSys :=
  (p, c) :: fs.filter (fun e => e.1 ≠ p)

/-- Remove a path from the filesystem. -/
def fsDel (fs : FileSys) (p : String) : FileSys :=
  fs.filter (fun e => e.1 ≠ p)

/-- A high-level file operation issued by the status store. -/
inductive FsOp where
  | write (path : String) (content : String)
  | rename (src : String) (dst : String)
deriving DecidableEq, Repr

/-- An atomic micro-step of the filesystem. -/
inductive MicroStep where
  | put (path : String) (content : String)
  | move (src : String) (dst : String)
deriving DecidableEq, Repr

/-- Micro-step expansion: a whole-file write is observable at every prefix
of the new contents (truncation first, then the data arriving in order);
a rename is one atomic step. -/
def microOf : FsOp → List MicroStep
  | FsOp.write p c => (List.range (c.length + 1)).map (fun k => MicroStep.put p (c.take k))
  | FsOp.rename s d => [MicroStep.move s d]

/-- Apply one micro-step to a filesystem. -/
def applyMicro (fs : FileSys) : MicroStep → FileSys
  | MicroStep.put p c => fsSet fs p c
  | MicroStep.move s d =>
    match fsGet fs s with
    | some c => fsSet (fsDel fs s) d c
    | none => fs

/-- All states reached while executing a list of micro-steps, including the
initial and final states. -/
def runMicros : List MicroStep → FileSys → List FileSys
  | [], fs => [fs]
  | m :: ms, fs => fs :: runMicros ms (applyMicro fs m)

/-- Every filesystem state a concurrent reader can observe while a trace of
file operations executes. -/
def interStates (t : List FsOp) (fs : FileSys) : List FileSys :=
  runMicros ((t.map microOf).flatten) fs

/-- Embedding of StatusManager._persist (status_manager.py lines 151-156)
and BaseStatusManager._persist (base_status.py lines 119-124): the
serialized snapshot is written directly to the status file with a single
write_text call. -/
def persistTrace (statusFilePath : String) (snapshotJson : String) : List FsOp :=
  [FsOp.write statusFilePath snapshotJson]

/-- Modelled from the spec: the write-to-temp + rename mechanism the spec
describes for the status store (spec 4.1 StatusStore).  Used only to state
what the claim asserts about _persist; the source has no such mechanism. -/
def specAtomicPersistTrace (statusFilePath tmpPath : String) (snapshotJson : String) :
    List FsOp :=
  [FsOp.write tmpPath snapshotJson, FsOp.rename tmpPath statusFilePath]

/-- The claim's property of a persistence trace: it writes the snapshot to
some temporary file distinct from the target and renames it into place. -/
def usesTempAndRename (t : List FsOp) (target : String) : Prop :=
  ∃ tmp c, tmp ≠ target ∧ t = [FsOp.write tmp c, FsOp.rename tmp target]

/-! ## Notification journal model (C2)

BaseStatusManager.notify_manager (base_status.py lines 126-164) and
StatusManager.notify_manager (status_manager.py lines 158-196) append a
record to the journal by reading the whole JSON array, appending in
memory, and writing the whole array back.  No lock of any kind is taken.
We model the journal as the list of record identifiers in the file and
each appender as two atomic actions: the read (which captures the current
journal into the worker's local buffer) and the write-back (which stores
the captured buffer plus the new record).  An interleaving of appenders is
a list of such actions. -/

/-- State of the journal file together with each worker's in-memory copy
captured by its pending read. -/
structure JournalState where
  journal : List Nat
  locals : List (Nat × List Nat)
deriving DecidableEq, Repr

/-- Look up the journal snapshot last read by a worker. -/
def getLocal (locals : List (Nat × List Nat)) (w : Nat) : Option (List Nat) :=
  match locals with
  | [] => none
  | (v, snap) :: rest => if v = w then some snap else getLocal rest w

/-- One atomic action of notify_manager: the read of the existing array,
or the write-back of the captured array plus the new record. -/
inductive JournalAct where
  | jread (worker : Nat)
  | jwrite (worker : Nat) (rec : Nat)
deriving DecidableEq, Repr

/-- Execute one action.  The read captures the current journal; the write
replaces the file with the captured journal plus the appended record,
exactly as notify_manager rewrites the whole array. -/
def journalStep (s : JournalState) : JournalAct → JournalState
  | JournalAct.jread w =>
    { s with locals := (w, s.journal) :: s.locals.filter (fun e => e.1 ≠ w) }
  | JournalAct.jwrite w rec =>
    match getLocal s.locals w with
    | some snap => { s with journal := snap ++ [rec] }
    | none => s

/-- Execute an interleaving of appender actions. -/
def journalRun (acts : List JournalAct) (s : JournalState) : JournalState :=
  acts.foldl journalStep s

/-- A serialized schedule: each worker's read is immediately followed by
its own write-back, with no interleaving. -/
def serializedSchedule : List (Nat × Nat) → List JournalAct
  | [] => []
  | (w, rec) :: rest =>
    JournalAct.jread w :: JournalAct.jwrite w rec :: serializedSchedule rest

/-! ## Worker data model (worker_agent/models.py, manager_agent/models.py) -/

/-- CIStatus (worker_agent/models.py lines 40-45). -/
inductive CIStatus where
  | pending
  | success
  | failure
deriving DecidableEq, Repr

/-- The string value of each CIStatus member. -/
def CIStatus.value : CIStatus → String
  | CIStatus.pending => "pending"
  | CIStatus.success => "success"
  | CIStatus.failure => "failure"

/-- WorkerPhase (worker_agent/models.py lines 13-28). -/
inductive WorkerPhase where
  | initializing
  | implementing
  | validating
  | creating_pr
  | awaiting_review
  | addressing_feedback
  | checking_ci
  | resolving_conflicts
  | merging
  | verifying_main
  | completed
  | failed
  | blocked
deriving DecidableEq, Repr

/-- The string value of each WorkerPhase member. -/
def WorkerPhase.value : WorkerPhase → String
  | WorkerPhase.initializing => "initializing"
  | WorkerPhase.implementing => "implementing"
  | WorkerPhase.validating => "validating"
  | WorkerPhase.creating_pr => "creating_pr"
  | WorkerPhase.awaiting_review => "awaiting_review"
  | WorkerPhase.addressing_feedback => "addressing_feedback"
  | WorkerPhase.checking_ci => "checking_ci"
  | WorkerPhase.resolving_conflicts => "resolving_conflicts"
  | WorkerPhase.merging => "merging"
  | WorkerPhase.verifying_main => "verifying_main"
  | WorkerPhase.completed => "completed"
  | WorkerPhase.failed => "failed"
  | WorkerPhase.blocked => "blocked"

/-- NotificationType (worker_agent/models.py lines 121-129). -/
inductive NotificationType where
  | status_update
  | permission_request
  | blocked
  | completed
  | failed
  | main_branch_failed
deriving DecidableEq, Repr

/-- The string value of each NotificationType member. -/
def NotificationType.value : NotificationType → String
  | NotificationType.status_update => "status_update"
  | NotificationType.permission_request => "permission_request"
  | NotificationType.blocked => "blocked"
  | NotificationType.completed => "completed"
  | NotificationType.failed => "failed"
  | NotificationType.main_branch_failed => "main_branch_failed"

/-! ## Main-branch verification (C3, C4)

GitHubManager.wait_for_main_branch_build (github_manager.py lines 378-419)
polls the combined status and check runs of the latest main commit.  Each
poll observation is a combined-status state plus the list of check runs.
The poll loop is embedded as structural recursion over the finite list of
observations made before the timeout; an exhausted list is the timeout. -/

/-- One check run as seen by the poll loop. -/
structure CheckRun where
  status : String
  conclusion : String
deriving DecidableEq, Repr

/-- One poll observation of the main branch. -/
structure MainObs where
  combinedState : String
  checkRuns : List CheckRun
deriving DecidableEq, Repr

/-- has_failure (github_manager.py lines 393-395): the combined status is
failure or some check run concluded failure. -/
def obsHasFailure (o : MainObs) : Bool :=
  o.combinedState == "failure" || o.checkRuns.any (fun r => r.conclusion == "failure")

/-- all_complete (github_manager.py lines 397-399): the combined status is
not pending and every check run is completed. -/
def obsAllComplete (o : MainObs) : Bool :=
  o.combinedState != "pending" && o.checkRuns.all (fun r => r.status == "completed")

/-- Embedding of GitHubManager.wait_for_main_branch_build: failure wins,
then completion; the loop keeps polling otherwise, and returns PENDING
when the timeout expires (observation list exhausted). -/
def waitForMainBranchBuild : List MainObs → CIStatus
  | [] => CIStatus.pending
  | o :: rest =>
    if obsHasFailure o then CIStatus.failure
    else if obsAllComplete o then CIStatus.success
    else waitForMainBranchBuild rest

/-- A notify_manager call as issued by WorkerAgent.run. -/
structure ManagerNote where
  noteType : NotificationType
  message : String
  requiresResponse : Bool
  metadata : List (String × Int)
deriving DecidableEq, Repr

/-- Result of the verifying_main phase of WorkerAgent.run. -/
structure VerifyMainOutcome where
  mainBranchVerified : Bool
  phase : WorkerPhase
  note : ManagerNote
  runReturn : Bool
deriving DecidableEq, Repr

/-- Embedding of the verifying_main arm of WorkerAgent.run (agent.py lines
188-216): on FAILURE the worker records main_branch_verified=False, sends
a MAIN_BRANCH_FAILED notification with requires_response=True and metadata
pr_number/issue_number, and ends in phase failed; on any other status it
records main_branch_verified=True, ends in phase completed and sends a
COMPLETED notification. -/
def verifyMainStep (mainStatus : CIStatus) (prNumber issueNumber : Int) :
    VerifyMainOutcome :=
  if mainStatus = CIStatus.failure then
    { mainBranchVerified := false
      phase := WorkerPhase.failed
      note := { noteType := NotificationType.main_branch_failed
                message := "Main branch build failed after merging PR #" ++
                  toString prNumber ++ " for issue #" ++ toString issueNumber
                requiresResponse := true
                metadata := [("pr_number", prNumber), ("issue_number", issueNumber)] }
      runReturn := false }
  else
    { mainBranchVerified := true
      phase := WorkerPhase.completed
      note := { noteType := NotificationType.completed
                message := "Successfully merged PR #" ++ toString prNumber ++
                  " for issue #" ++ toString issueNumber ++
                  ". Main branch build verified."
                requiresResponse := false
                metadata := [] }
      runReturn := true }

/-! ## Escalations (manager_agent/escalation_handler.py) -/

/-- A JSON-like context value in an escalation context map. -/
inductive CtxVal where
  | vs (s : String)
  | vi (n : Int)
  | vnull
deriving DecidableEq, Repr

/-- Context value of an optional int field (Python None becomes null). -/
def ctxOfOptInt : Option Int → CtxVal
  | some n => CtxVal.vi n
  | none => CtxVal.vnull

/-- Context value of an optional string field. -/
def ctxOfOptStr : Option String → CtxVal
  | some s => CtxVal.vs s
  | none => CtxVal.vnull

/-- Python str() of an optional int, as interpolated into an f-string. -/
def optIntStr : Option Int → String
  | some n => toString n
  | none => "None"

/-- WorkerInfo (manager_agent/models.py lines 64-77), the fields used by
the escalation handler. -/
structure WorkerInfoM where
  pid : Int
  issue_number : Int
  branch : String
  pr_number : Option Int
  pr_url : Option String
  blocked_reason : Option String
  error_message : Option String
deriving DecidableEq, Repr

/-- IssueInfo (manager_agent/models.py lines 47-61), the fields used by
the escalation handler. -/
structure IssueInfoM where
  number : Int
  title : String
deriving DecidableEq, Repr

/-- Escalation (manager_agent/models.py lines 123-132). -/
structure EscalationRec where
  issue_number : Int
  worker_pid : Option Int
  escalation_type : String
  message : String
  context : List (String × CtxVal)
  resolved : Bool
deriving DecidableEq, Repr

/-- Embedding of EscalationHandler.escalate_main_failure
(escalation_handler.py lines 103-129). -/
def escalate_main_failure (worker : WorkerInfoM) (issue : IssueInfoM)
    (error_details : String) : EscalationRec :=
  { issue_number := issue.number
    worker_pid := some worker.pid
    escalation_type := "main_failure"
    message := "Main branch failed after merging PR #" ++ optIntStr worker.pr_number ++
      " for issue #" ++ toString issue.number
    context := [("issue_title", CtxVal.vs issue.title),
                ("pr_number", ctxOfOptInt worker.pr_number),
                ("pr_url", ctxOfOptStr worker.pr_url),
                ("error_details", CtxVal.vs error_details)]
    resolved := false }

/-! ## Bot-comment review synthesis (C5)

GitHubManager.get_pr_comments_from_claude (github_manager.py lines
148-226) lifts PR issue comments authored by Claude-style bots to
synthetic reviews.  The Python substring test (needle in haystack) is
embedded as an executable character-list containment check. -/

/-- Whether the haystack starts with the needle (on character lists). -/
def startsWithChars : List Char → List Char → Bool
  | _, [] => true
  | [], _ :: _ => false
  | a :: as, b :: bs => a == b && startsWithChars as bs

/-- Whether the needle occurs contiguously inside the haystack. -/
def containsChars : List Char → List Char → Bool
  | [], needle => needle.isEmpty
  | a :: as, needle => startsWithChars (a :: as) needle || containsChars as needle

/-- Python needle in haystack, on strings. -/
def strIn (needle hay : String) : Bool :=
  containsChars hay.toList needle.toList

/-- Python str.lower(), character by character. -/
def pyLower (s : String) : String :=
  String.mk (s.toList.map Char.toLower)

/-- A PR issue comment as consumed by get_pr_comments_from_claude. -/
structure IssueComment where
  id : Int
  body : String
  user_login : String
  user_type : String
deriving DecidableEq, Repr

/-- is_claude (github_manager.py lines 164-168): the author is of type Bot
or the login contains claude or anthropic. -/
def isClaude (c : IssueComment) : Bool :=
  c.user_type == "Bot" || strIn "claude" (pyLower c.user_login) ||
    strIn "anthropic" (pyLower c.user_login)

/-- The change-request indicators of the source (github_manager.py line
179), in source order. -/
def changeIndicators : List String :=
  ["fix:", "issue:", "bug:", "error:", "problem:", "should", "must", "need to"]

/-- requests_changes (github_manager.py lines 177-180): some indicator
occurs in the lowercased comment body. -/
def requestsChanges (body : String) : Bool :=
  changeIndicators.any (fun k => strIn k (pyLower body))

/-- State synthesis (github_manager.py lines 183-186). -/
def synthesizedState (body : String) : String :=
  if requestsChanges body then "CHANGES_REQUESTED" else "COMMENTED"

/-- The keyword set named by the claim and the spec review-synthesis rule:
must, should, need to, fix:, bug:, error:, problem:. -/
def specKeywords : List String :=
  ["must", "should", "need to", "fix:", "bug:", "error:", "problem:"]

/-! ## Idempotent change-request creation (C6)

GitHubManager.create_pr (github_manager.py lines 55-100) together with
get_existing_pr (lines 45-53).  The forge is modelled as the open PR (if
any) for the worker's head branch plus a fresh-id counter; create_pull
raises a 422-class error when an open PR already exists for the branch.
create_pr consults the forge twice (the existence pre-check, then the
create attempt), so it takes the forge state at each of those moments,
which lets a concurrent PR creation intervene between them. -/

/-- Forge state for one head branch: the currently open PR id, if any, and
the id the next created PR receives. -/
structure ForgeState where
  openPR : Option Nat
  nextId : Nat
deriving DecidableEq, Repr

/-- Embedding of GitHubManager.get_existing_pr: the open PR for the
branch, if any. -/
def get_existing_pr (s : ForgeState) : Option Nat := s.openPR

/-- The forge's create_pull primitive: a 422-class duplicate error when an
open PR already exists for the branch, otherwise a fresh PR. -/
def create_pull (s : ForgeState) : Except Nat (Nat × ForgeState) :=
  match s.openPR with
  | some _ => Except.error 422
  | none => Except.ok (s.nextId, { openPR := some s.nextId, nextId := s.nextId + 1 })

/-- Embedding of GitHubManager.create_pr: return the existing PR if the
pre-check finds one; otherwise attempt creation, and on a 422-class error
fall through to looking up the open PR again, re-raising if none exists. -/
def create_pr (sAtCheck sAtCreate : ForgeState) : Except Nat (Nat × ForgeState) :=
  match get_existing_pr sAtCheck with
  | some n => Except.ok (n, sAtCreate)
  | none =>
    match create_pull sAtCreate with
    | Except.ok r => Except.ok r
    | Except.error code =>
      if code = 422 then
        match get_existing_pr sAtCreate with
        | some n => Except.ok (n, sAtCreate)
        | none => Except.error code
      else Except.error code

/-! ## The review / CI / merge retry loop (C7, C9)

WorkerAgent.run (agent.py lines 106-220) runs the outer loop
for iteration in range(max_retries).  Each iteration consumes one
environment record holding every external outcome the iteration can
observe; the loop body either continues (consuming one unit of retry
budget) or produces the run outcome. -/

/-- A review verdict as returned by wait_for_claude_review. -/
inductive ReviewVerdict where
  | approved
  | changes_requested
  | commented
deriving DecidableEq, Repr

/-- The external outcomes one iteration of the outer loop can observe. -/
structure IterEnv where
  review : Option ReviewVerdict
  feedbackFixed : Bool
  ciStatus : CIStatus
  ciFixed : Bool
  hasConflicts : Bool
  rebaseOk : Bool
  mergeOk : Bool
  mainStatus : CIStatus
deriving DecidableEq, Repr

/-- Outcome of the outer loop. -/
inductive LoopOutcome where
  | completed
  | failedMain
  | blocked (reason : String)
deriving DecidableEq, Repr

/-- One iteration of the loop body (agent.py lines 108-216).  none means
the body reached a continue and the loop consumes the next retry.
CHANGES_REQUESTED always continues (whether or not the fix pass
succeeded); otherwise a CI failure either continues after a successful fix
pass or blocks; conflicts either continue after a successful rebase or
block; a failed merge continues; after a merge the main-branch
verification yields the terminal outcome. -/
def iterStep (env : IterEnv) : Option LoopOutcome :=
  match env.review with
  | some ReviewVerdict.changes_requested => none
  | _ =>
    if env.ciStatus = CIStatus.failure then
      if env.ciFixed then none
      else some (LoopOutcome.blocked "CI failed after retries")
    else if env.hasConflicts then
      if env.rebaseOk then none
      else some (LoopOutcome.blocked "Merge conflicts require manual resolution")
    else if !env.mergeOk then none
    else if env.mainStatus = CIStatus.failure then some LoopOutcome.failedMain
    else some LoopOutcome.completed

/-- The outer loop over the per-iteration environments (the list length is
the retry budget max_retries).  Returns the outcome together with the
number of iterations executed; an exhausted budget yields blocked
Exhausted retry attempts (agent.py lines 218-220). -/
def reviewMergeLoop : List IterEnv → LoopOutcome × Nat
  | [] => (LoopOutcome.blocked "Exhausted retry attempts", 0)
  | e :: rest =>
    match iterStep e with
    | some out => (out, 1)
    | none => ((reviewMergeLoop rest).1, (reviewMergeLoop rest).2 + 1)

/-- The default retry budget (WorkerConfig.max_retries, models.py line
107). -/
def max_retries_default : Nat := 3

/-- An iteration environment on which the loop body always continues: the
review requested changes. -/
def continueEnv : IterEnv :=
  { review := some ReviewVerdict.changes_requested
    feedbackFixed := true
    ciStatus := CIStatus.success
    ciFixed := false
    hasConflicts := false
    rebaseOk := false
    mergeOk := true
    mainStatus := CIStatus.success }

/-! ## Worker finalization and worktree cleanup (C9)

WorkerAgent.run reaches its finally block (agent.py lines 231-236) with
some final status; GitManager.cleanup (git_manager.py lines 173-187)
removes the worktree.  The pre-loop phases (agent.py lines 75-102) may
block before the outer loop starts. -/

/-- Outcomes of the phases before the outer loop. -/
structure PrePhaseEnv where
  implementOk : Bool
  validateOk : Bool
  fixValidationOk : Bool
  createPrOk : Bool
deriving DecidableEq, Repr

/-- The worker status as the finally block observes it. -/
structure RunFinal where
  phase : WorkerPhase
  blockedReason : Option String
deriving DecidableEq, Repr

/-- Embedding of the phase outcome of WorkerAgent.run: the pre-loop
blocking arms (agent.py lines 82-102), then the outer loop.  set_blocked
sets phase blocked with the given reason; the post-merge failure arm sets
phase failed; success sets phase completed. -/
def runStatus (pre : PrePhaseEnv) (envs : List IterEnv) : RunFinal :=
  if !pre.implementOk then ⟨WorkerPhase.blocked, some "Failed to implement feature"⟩
  else if !pre.validateOk && !pre.fixValidationOk then
    ⟨WorkerPhase.blocked, some "Validation failed after retries"⟩
  else if !pre.createPrOk then ⟨WorkerPhase.blocked, some "Failed to create PR"⟩
  else
    match (reviewMergeLoop envs).1 with
    | LoopOutcome.completed => ⟨WorkerPhase.completed, none⟩
    | LoopOutcome.failedMain => ⟨WorkerPhase.failed, none⟩
    | LoopOutcome.blocked r => ⟨WorkerPhase.blocked, some r⟩

/-- The finally block of WorkerAgent.run (agent.py lines 231-236): cleanup
runs exactly when the final phase is COMPLETED or FAILED. -/
def cleanupInvoked (final : RunFinal) : Bool :=
  final.phase == WorkerPhase.completed || final.phase == WorkerPhase.failed

/-- Whether the worktree directory still exists after the run: cleanup
(git worktree remove --force, git_manager.py lines 173-187) deletes it;
otherwise it is left untouched. -/
def worktreeAfterRun (existsBefore : Bool) (final : RunFinal) : Bool :=
  if cleanupInvoked final then false else existsBefore

/-! ## Animation quality loop (C8)

analyze_animation (analyze_animation.py lines 199-207) normalizes the raw
evaluator verdict against the quality threshold;
AnimationWorkerAgent.run (animation-worker agent.py lines 96-223) iterates
produce / render / analyze until the verdict is done or the budget is
exhausted. -/

/-- Python str.upper(), character by character. -/
def pyUpper (s : String) : String :=
  String.mk (s.toList.map Char.toUpper)

/-- Embedding of the verdict normalization of analyze_animation
(analyze_animation.py lines 199-207): a raw DONE with a quality score
below the threshold is coerced to needs_work; otherwise DONE maps to done
and anything else to needs_work. -/
def normalizeVerdict (verdictRaw : String) (qualityScore qualityThreshold : Int) :
    String :=
  if pyUpper verdictRaw = "DONE" ∧ qualityScore < qualityThreshold then "needs_work"
  else if pyUpper verdictRaw = "DONE" then "done"
  else "needs_work"

/-- The external outcomes one animation iteration can observe. -/
structure AnimIter where
  createOk : Bool
  renderOk : Bool
  rawVerdict : String
  score : Int
deriving DecidableEq, Repr

/-- Outcome of the animation loop. -/
inductive AnimOutcome where
  | animCompleted (iteration : Nat) (score : Int)
  | animFailed
deriving DecidableEq, Repr

/-- Embedding of the animation iteration loop (animation-worker agent.py
lines 98-223), starting at a given iteration number: failed creation or
rendering continues to the next iteration; the loop succeeds exactly when
the normalized verdict is done; an exhausted budget fails. -/
def animLoopFrom (threshold : Int) (iteration : Nat) : List AnimIter → AnimOutcome
  | [] => AnimOutcome.animFailed
  | it :: rest =>
    if !it.createOk then animLoopFrom threshold (iteration + 1) rest
    else if !it.renderOk then animLoopFrom threshold (iteration + 1) rest
    else if normalizeVerdict it.rawVerdict it.score threshold = "done" then
      AnimOutcome.animCompleted iteration it.score
    else animLoopFrom threshold (iteration + 1) rest

/-- The animation loop as run by the agent: iterations count from 1. -/
def animLoop (threshold : Int) (iters : List AnimIter) : AnimOutcome :=
  animLoopFrom threshold 1 iters

/-! ## Supervisor worker classification (C10)

WorkerPool.poll_workers (worker_pool.py lines 108-162) classifies each
tracked worker from its last-read status snapshot and process liveness. -/

/-- The fields of a worker status snapshot read by poll_workers. -/
structure StatusSnapshot where
  phase : String
  blocked_reason : Option String
  error_message : Option String
  pr_number : Option Int
  pr_url : Option String
deriving DecidableEq, Repr

/-- WorkerState (manager_agent/models.py lines 37-44). -/
inductive MWorkerState where
  | starting
  | running
  | blocked
  | completed
  | failed
deriving DecidableEq, Repr

/-- Python truthiness of an optional string: None and the empty string are
falsy. -/
def pyTruthyStr : Option String → Bool
  | some s => !(s == "")
  | none => false

/-- Embedding of the per-worker classification of WorkerPool.poll_workers
(worker_pool.py lines 115-157): with a snapshot present, a truthy
blocked_reason wins, then phase completed, then phase failed, then a dead
process, else running; with no snapshot, a dead process is failed and a
live one keeps its previous state. -/
def classifyWorker (prev : MWorkerState) (status : Option StatusSnapshot)
    (processAlive : Bool) : MWorkerState :=
  match status with
  | some st =>
    if pyTruthyStr st.blocked_reason then MWorkerState.blocked
    else if st.phase == "completed" then MWorkerState.completed
    else if st.phase == "failed" then MWorkerState.failed
    else if !processAlive then MWorkerState.failed
    else MWorkerState.running
  | none => if !processAlive then MWorkerState.failed else prev

/-! ## Theorems -/

/-- C1: the claim asserts that every call to the status write operation
persists the snapshot by writing to a temporary file and renaming it into
place.  At the concrete call that persists snapshot contents NEWCONTENT to
status file st/worker-42.json, the trace emitted by the embedded _persist
is not of that shape: the claim is false. -/
theorem C1_counterexample :
    ¬ usesTempAndRename (persistTrace "st/worker-42.json" "NEWCONTENT")
      "st/worker-42.json" := by
  rintro ⟨tmp, c, hne, heq⟩
  simp [persistTrace] at heq

/-- C1 (amended): every _persist call performs a single direct write of the
full serialized snapshot to the status file, with no temporary file and no
rename; consequently a reader concurrent with the write can observe a torn
snapshot.  Concretely, persisting NEWCONTENT over OLD exposes an
intermediate state where the status file holds NEW, which is neither the
old nor the new snapshot. -/
theorem C1_direct_write_and_torn_read :
    (∀ p c, persistTrace p c = [FsOp.write p c]) ∧
      (∃ fs ∈ interStates (persistTrace "st/worker-42.json" "NEWCONTENT")
          [("st/worker-42.json", "OLD")],
        fsGet fs "st/worker-42.json" = some "NEW" ∧
          some "NEW" ≠ some "OLD" ∧ some "NEW" ≠ some "NEWCONTENT") := by
  constructor
  · intro p c
    rfl
  · refine ⟨fsSet [("st/worker-42.json", "OLD")] "st/worker-42.json" "NEW", ?_, ?_⟩
    · decide
    · decide

/-- Helper for C2: executing a serialized schedule appends every record,
in order, to whatever the journal held before. -/
lemma journalRun_serialized (ps : List (Nat × Nat)) (s : JournalState) :
    (journalRun (serializedSchedule ps) s).journal = s.journal ++ ps.map Prod.snd := by
  induction ps generalizing s with
  | nil => simp [serializedSchedule, journalRun]
  | cons p rest ih =>
    obtain ⟨w, rec⟩ := p
    have h1 : journalRun (serializedSchedule ((w, rec) :: rest)) s =
        journalRun (serializedSchedule rest)
          (journalStep (journalStep s (JournalAct.jread w)) (JournalAct.jwrite w rec)) := rfl
    have h2 : journalStep (journalStep s (JournalAct.jread w)) (JournalAct.jwrite w rec) =
        { journal := s.journal ++ [rec],
          locals := (w, s.journal) :: s.locals.filter (fun e => e.1 ≠ w) } := by
      simp [journalStep, getLocal]
    rw [h1, h2, ih]
    simp

/-- C2: the claim asserts that under every interleaving of notify_manager
calls by concurrent workers, every appended notification is present in the
final journal.  This is false: notify_manager takes no lock around its
read-modify-write, so in the interleaving where worker 1 and worker 2 both
read the empty journal before either writes back, worker 1 appends record
101 and worker 2 appends record 202, the final journal is [202] and record
101 is lost. -/
theorem C2_counterexample :
    (journalRun
        [JournalAct.jread 1, JournalAct.jread 2,
         JournalAct.jwrite 1 101, JournalAct.jwrite 2 202]
        ⟨[], []⟩).journal = [202] ∧
      101 ∉ (journalRun
        [JournalAct.jread 1, JournalAct.jread 2,
         JournalAct.jwrite 1 101, JournalAct.jwrite 2 202]
        ⟨[], []⟩).journal := by
  decide

/-- C2 (amended): notify_manager performs an unlocked read-modify-write of
the journal array.  When the appenders happen to be serialized (each read
immediately followed by the corresponding write-back) no append is lost or
duplicated: starting from an empty journal, the final journal is exactly
the list of appended records in order, one record per append.  Under a
genuinely concurrent interleaving an append can be lost, as the
counterexample shows. -/
theorem C2_serialized_appends (ps : List (Nat × Nat)) :
    (journalRun (serializedSchedule ps) ⟨[], []⟩).journal = ps.map Prod.snd ∧
      (journalRun (serializedSchedule ps) ⟨[], []⟩).journal.length = ps.length := by
  constructor
  · simpa using journalRun_serialized ps ⟨[], []⟩
  · have := journalRun_serialized ps ⟨[], []⟩
    simp only [this]
    simp

/-- C3: the claim asserts that after a post-merge main-branch failure the
notification category is post_merge_failed and the recorded escalation has
category post_merge_regression with issue_number in its context.  At the
concrete failing run (PR 1001, issue 42), the notification category value
is main_branch_failed, the escalation type is main_failure, and the
context keys are issue_title, pr_number, pr_url and error_details with no
issue_number entry: the conjunction the claim asserts is false. -/
theorem C3_counterexample :
    ¬ ((verifyMainStep CIStatus.failure 1001 42).note.noteType.value =
          "post_merge_failed" ∧
        (escalate_main_failure
            ⟨4242, 42, "worker/issue-42", some 1001, some "u", none, none⟩
            ⟨42, "t"⟩ "Main branch build failed").escalation_type =
          "post_merge_regression" ∧
        "issue_number" ∈ (escalate_main_failure
            ⟨4242, 42, "worker/issue-42", some 1001, some "u", none, none⟩
            ⟨42, "t"⟩ "Main branch build failed").context.map Prod.fst) := by
  decide

/-- C3 (amended): when the main-branch build returns failure after a
successful merge, the worker sets main_branch_verified=false, ends in the
terminal phase failed, and emits a notification of category
main_branch_failed with requires_response=true carrying pr_number and
issue_number in its metadata; the recorded escalation carries category
main_failure, holds the issue number as the top-level issue_number field,
and its context holds issue_title, pr_number, pr_url and error_details
(but no issue_number key). -/
theorem C3_main_failure_outcome (pr n : Int) (worker : WorkerInfoM)
    (issue : IssueInfoM) (details : String) :
    (verifyMainStep CIStatus.failure pr n).mainBranchVerified = false ∧
      (verifyMainStep CIStatus.failure pr n).phase = WorkerPhase.failed ∧
      (verifyMainStep CIStatus.failure pr n).note.noteType =
        NotificationType.main_branch_failed ∧
      (verifyMainStep CIStatus.failure pr n).note.noteType.value =
        "main_branch_failed" ∧
      (verifyMainStep CIStatus.failure pr n).note.requiresResponse = true ∧
      (verifyMainStep CIStatus.failure pr n).note.metadata =
        [("pr_number", pr), ("issue_number", n)] ∧
      (escalate_main_failure worker issue details).escalation_type =
        "main_failure" ∧
      (escalate_main_failure worker issue details).issue_number = issue.number ∧
      (escalate_main_failure worker issue details).context.map Prod.fst =
        ["issue_title", "pr_number", "pr_url", "error_details"] := by
  refine ⟨rfl, rfl, rfl, rfl, rfl, rfl, rfl, rfl, rfl⟩

/-- C4: the claim states that when the main-branch combined check status
is still pending at main_build_timeout, the worker ends completed with
main_branch_verified=false.  The code disagrees with the claim (and with
the run() docstring, which promises a successful return only when main is
green): wait_for_main_branch_build returns PENDING at timeout, and the
caller treats every non-FAILURE status as the success arm, so the worker
ends completed with main_branch_verified=true and a COMPLETED notification
claiming the main branch build was verified.  This theorem evaluates the
embedded code at the failing input (every poll observes a pending combined
status); the success case, which the claim states correctly, is included
for contrast. -/
theorem C4_pending_timeout_eval :
    waitForMainBranchBuild [⟨"pending", []⟩, ⟨"pending", []⟩] = CIStatus.pending ∧
      (verifyMainStep
          (waitForMainBranchBuild [⟨"pending", []⟩, ⟨"pending", []⟩]) 1001 42).phase =
        WorkerPhase.completed ∧
      (verifyMainStep
          (waitForMainBranchBuild [⟨"pending", []⟩, ⟨"pending", []⟩]) 1001
          42).mainBranchVerified = true ∧
      (verifyMainStep
          (waitForMainBranchBuild [⟨"pending", []⟩, ⟨"pending", []⟩]) 1001
          42).note.noteType = NotificationType.completed ∧
      waitForMainBranchBuild [⟨"success", [⟨"completed", "success"⟩]⟩] =
        CIStatus.success ∧
      (verifyMainStep
          (waitForMainBranchBuild [⟨"success", [⟨"completed", "success"⟩]⟩]) 1001
          42).phase = WorkerPhase.completed := by
  decide

/-- C5: the claim asserts that a bot comment is synthesized as
CHANGES_REQUESTED if and only if one of the keywords must, should, need
to, fix:, bug:, error:, problem: occurs in the body.  The source also
treats issue: as a change indicator, so the comment body issue: rename
the variable, authored by a Bot, is synthesized CHANGES_REQUESTED although
it contains none of the claimed keywords: the stated equivalence is
false. -/
theorem C5_counterexample :
    isClaude ⟨7, "issue: rename the variable", "claude-bot", "Bot"⟩ = true ∧
      synthesizedState "issue: rename the variable" = "CHANGES_REQUESTED" ∧
      specKeywords.all
        (fun k => !(strIn k (pyLower "issue: rename the variable"))) = true := by
  decide

/-- C5 (amended): for every PR issue comment recognized as Claude-style
(author of type Bot or login containing claude or anthropic), the
synthesized review state is CHANGES_REQUESTED if and only if the
lowercased body contains at least one of the keywords must, should, need
to, fix:, issue:, bug:, error:, problem: (the claimed set plus issue:),
and is COMMENTED otherwise. -/
theorem C5_state_iff (c : IssueComment) (h : isClaude c = true) :
    (synthesizedState c.body = "CHANGES_REQUESTED" ↔
        ∃ k ∈ ("issue:" :: specKeywords), strIn k (pyLower c.body) = true) ∧
      (synthesizedState c.body = "CHANGES_REQUESTED" ∨
        synthesizedState c.body = "COMMENTED") := by
  have hsets : (∃ k ∈ changeIndicators, strIn k (pyLower c.body) = true) ↔
      ∃ k ∈ ("issue:" :: specKeywords), strIn k (pyLower c.body) = true := by
    simp only [changeIndicators, specKeywords, List.mem_cons, List.not_mem_nil]
    constructor
    · rintro ⟨k, hk, hin⟩
      exact ⟨k, by tauto, hin⟩
    · rintro ⟨k, hk, hin⟩
      exact ⟨k, by tauto, hin⟩
  constructor
  · unfold synthesizedState
    by_cases hr : requestsChanges c.body
    · simp only [hr, if_true]
      simp only [requestsChanges, List.any_eq_true] at hr
      exact ⟨fun _ => hsets.mp hr, fun _ => trivial⟩
    · simp only [hr, if_false]
      simp only [requestsChanges, List.any_eq_true] at hr
      constructor
      · intro hcontra
        exact absurd hcontra (by decide)
      · intro hmem
        exact absurd (hsets.mpr hmem) (by simpa using hr)
  · unfold synthesizedState
    by_cases hr : requestsChanges c.body
    · simp [hr]
    · simp [hr]

/-- C5 witness: the amended equivalence applied to a concrete bot comment
whose body contains the keyword must. -/
theorem C5_state_iff_witness :
    isClaude ⟨9, "must fix the null deref", "claude-code-bot", "User"⟩ = true ∧
      ((synthesizedState "must fix the null deref" = "CHANGES_REQUESTED" ↔
          ∃ k ∈ ("issue:" :: specKeywords),
            strIn k (pyLower "must fix the null deref") = true) ∧
        (synthesizedState "must fix the null deref" = "CHANGES_REQUESTED" ∨
          synthesizedState "must fix the null deref" = "COMMENTED")) :=
  ⟨by decide,
    C5_state_iff ⟨9, "must fix the null deref", "claude-code-bot", "User"⟩ (by decide)⟩

/-- C6: change-request creation is idempotent.  First conjunct: from any
forge state, a create_pr call without concurrent interference succeeds
with some id, and an immediately repeated call returns the same id.
Second conjunct: when no PR existed at the pre-check but one with id m was
created concurrently before the create attempt, create_pull fails with the
422-class duplicate error and create_pr falls through to the existing-PR
lookup and returns m. -/
theorem C6_create_pr_idempotent (s : ForgeState) :
    (∃ n s1, create_pr s s = Except.ok (n, s1) ∧
        create_pr s1 s1 = Except.ok (n, s1)) ∧
      (∀ m k j, create_pr ⟨none, k⟩ ⟨some m, j⟩ =
        Except.ok (m, ⟨some m, j⟩)) := by
  constructor
  · obtain ⟨op, k⟩ := s
    cases op with
    | none => exact ⟨k, ⟨some k, k + 1⟩, rfl, rfl⟩
    | some n => exact ⟨n, ⟨some n, k⟩, rfl, rfl⟩
  · intro m k j
    rfl

/-- C7: the outer review / feedback / CI / conflicts / merge loop executes
at most as many iterations as its budget (the length of the environment
list, range max_retries in the source, default 3), and when every
iteration continues without reaching a terminal or blocked outcome the
run ends blocked with reason Exhausted retry attempts after exactly the
budgeted number of iterations. -/
theorem C7_retry_budget (envs : List IterEnv) :
    (reviewMergeLoop envs).2 ≤ envs.length ∧
      max_retries_default = 3 ∧
      ((∀ e ∈ envs, iterStep e = none) →
        reviewMergeLoop envs =
          (LoopOutcome.blocked "Exhausted retry attempts", envs.length)) := by
  induction envs with
  | nil => exact ⟨Nat.le_refl 0, rfl, fun _ => rfl⟩
  | cons e rest ih =>
    refine ⟨?_, rfl, ?_⟩
    · cases hstep : iterStep e with
      | some out => simp [reviewMergeLoop, hstep]
      | none =>
        simp only [reviewMergeLoop, hstep, List.length_cons]
        exact Nat.succ_le_succ ih.1
    · intro hall
      have he : iterStep e = none := hall e (List.mem_cons_self e rest)
      have hrest : ∀ x ∈ rest, iterStep x = none := fun x hx =>
        hall x (List.mem_cons_of_mem e hx)
      have hr := ih.2.2 hrest
      simp [reviewMergeLoop, he, hr]

/-- C7 witness: with a budget of three iterations that all continue (each
review requests changes), the loop runs exactly three iterations and ends
blocked with Exhausted retry attempts. -/
theorem C7_retry_budget_witness :
    (reviewMergeLoop [continueEnv, continueEnv, continueEnv]).2 ≤ 3 ∧
      reviewMergeLoop [continueEnv, continueEnv, continueEnv] =
        (LoopOutcome.blocked "Exhausted retry attempts", 3) := by
  have h := C7_retry_budget [continueEnv, continueEnv, continueEnv]
  exact ⟨h.1, h.2.2 (by decide)⟩

/-- Helper for C8: the animation loop never reports completion at an
iteration number smaller than the one it started from. -/
lemma animLoopFrom_completed_ge (t : Int) (l : List AnimIter) :
    ∀ j k s, animLoopFrom t j l = AnimOutcome.animCompleted k s → j ≤ k := by
  induction l with
  | nil =>
    intro j k s h
    simp [animLoopFrom] at h
  | cons it rest ih =>
    intro j k s h
    by_cases hc : it.createOk
    · by_cases hr : it.renderOk
      · by_cases hv : normalizeVerdict it.rawVerdict it.score t = "done"
        · simp [animLoopFrom, hc, hr, hv] at h
          omega
        · have := ih (j + 1) k s (by simpa [animLoopFrom, hc, hr, hv] using h)
          omega
      · have := ih (j + 1) k s (by simpa [animLoopFrom, hc, hr] using h)
        omega
    · have := ih (j + 1) k s (by simpa [animLoopFrom, hc] using h)
      omega

/-- C8: when the evaluator reports a raw verdict of DONE with a quality
score below the threshold, the normalized verdict is needs_work, the loop
does not succeed on that iteration but continues with the remaining
iterations, and in general the loop succeeds at an iteration only when
that iteration's normalized verdict is done. -/
theorem C8_done_below_threshold_coerced (t : Int) (it : AnimIter)
    (rest : List AnimIter) (i : Nat)
    (hc : it.createOk = true) (hr : it.renderOk = true)
    (hd : pyUpper it.rawVerdict = "DONE") (hs : it.score < t) :
    normalizeVerdict it.rawVerdict it.score t = "needs_work" ∧
      animLoopFrom t i (it :: rest) = animLoopFrom t (i + 1) rest ∧
      (∀ (it2 : AnimIter) (rs : List AnimIter) (j : Nat) (s : Int),
        animLoopFrom t j (it2 :: rs) = AnimOutcome.animCompleted j s →
        normalizeVerdict it2.rawVerdict it2.score t = "done") := by
  have hnv : normalizeVerdict it.rawVerdict it.score t = "needs_work" := by
    simp [normalizeVerdict, hd, hs]
  refine ⟨hnv, ?_, ?_⟩
  · simp [animLoopFrom, hc, hr, hnv]
  · intro it2 rs j s h
    by_cases hc2 : it2.createOk
    · by_cases hr2 : it2.renderOk
      · by_cases hv2 : normalizeVerdict it2.rawVerdict it2.score t = "done"
        · exact hv2
        · exfalso
          have hrec : animLoopFrom t (j + 1) rs = AnimOutcome.animCompleted j s := by
            simpa [animLoopFrom, hc2, hr2, hv2] using h
          have := animLoopFrom_completed_ge t rs (j + 1) j s hrec
          omega
      · exfalso
        have hrec : animLoopFrom t (j + 1) rs = AnimOutcome.animCompleted j s := by
          simpa [animLoopFrom, hc2, hr2] using h
        have := animLoopFrom_completed_ge t rs (j + 1) j s hrec
        omega
    · exfalso
      have hrec : animLoopFrom t (j + 1) rs = AnimOutcome.animCompleted j s := by
        simpa [animLoopFrom, hc2] using h
      have := animLoopFrom_completed_ge t rs (j + 1) j s hrec
      omega

/-- C8 witness: with threshold 85, a raw DONE at score 60 is coerced to
needs_work and the loop continues past that iteration, while a raw DONE at
score 90 lets the loop succeed with verdict done. -/
theorem C8_done_below_threshold_coerced_witness :
    normalizeVerdict "DONE" 60 85 = "needs_work" ∧
      animLoopFrom 85 1 [⟨true, true, "DONE", 60⟩] = animLoopFrom 85 2 [] ∧
      normalizeVerdict "DONE" 90 85 = "done" := by
  have h := C8_done_below_threshold_coerced 85 ⟨true, true, "DONE", 60⟩ [] 1 rfl rfl
    (by decide) (by decide)
  refine ⟨h.1, h.2.1, ?_⟩
  exact h.2.2 ⟨true, true, "DONE", 90⟩ [] 1 90 (by decide)

/-- C9: the worktree is removed at the end of a worker run exactly when
the final phase is completed or failed; when the run ends blocked the
worktree is left as it was, preserving state for human intervention. -/
theorem C9_worktree_cleanup_iff (pre : PrePhaseEnv) (envs : List IterEnv) :
    (worktreeAfterRun true (runStatus pre envs) = false ↔
        ((runStatus pre envs).phase = WorkerPhase.completed ∨
          (runStatus pre envs).phase = WorkerPhase.failed)) ∧
      ((runStatus pre envs).phase = WorkerPhase.blocked →
        worktreeAfterRun true (runStatus pre envs) = true ∧
          worktreeAfterRun false (runStatus pre envs) = false) := by
  constructor
  · cases hph : (runStatus pre envs).phase <;>
      simp [worktreeAfterRun, cleanupInvoked, hph]
  · intro hb
    constructor <;> simp [worktreeAfterRun, cleanupInvoked, hb]

/-- C9 witness: a run that blocks before creating a PR leaves the worktree
exactly as it was; the cleanup-iff equivalence holds there as well. -/
theorem C9_worktree_cleanup_iff_witness :
    (worktreeAfterRun true (runStatus ⟨false, true, true, true⟩ []) = false ↔
        ((runStatus ⟨false, true, true, true⟩ []).phase = WorkerPhase.completed ∨
          (runStatus ⟨false, true, true, true⟩ []).phase = WorkerPhase.failed)) ∧
      (worktreeAfterRun true (runStatus ⟨false, true, true, true⟩ []) = true ∧
        worktreeAfterRun false (runStatus ⟨false, true, true, true⟩ []) = false) := by
  have h := C9_worktree_cleanup_iff ⟨false, true, true, true⟩ []
  exact ⟨h.1, h.2 (by decide)⟩

/-- C10: the claim asserts that a snapshot with a non-null blocked_reason
is always classified BLOCKED.  The source tests Python truthiness, not
non-nullness: a snapshot with blocked_reason set to the empty string (a
non-null value) and phase completed is classified COMPLETED, not
BLOCKED. -/
theorem C10_counterexample :
    (some "" : Option String) ≠ none ∧
      classifyWorker MWorkerState.running
        (some ⟨"completed", some "", none, none, none⟩) true =
        MWorkerState.completed ∧
      classifyWorker MWorkerState.running
        (some ⟨"completed", some "", none, none, none⟩) true ≠
        MWorkerState.blocked := by
  decide

/-- C10 (amended): after a poll step, a tracked worker whose snapshot
holds a non-empty blocked_reason is classified BLOCKED regardless of the
snapshot's phase and of process liveness; when blocked_reason is absent or
empty, the classification falls through to phase completed, then phase
failed, then process death, else running. -/
theorem C10_blocked_reason_priority (prev : MWorkerState) (st : StatusSnapshot)
    (alive : Bool) :
    (∀ r, st.blocked_reason = some r → r ≠ "" →
        classifyWorker prev (some st) alive = MWorkerState.blocked) ∧
      (pyTruthyStr st.blocked_reason = false →
        classifyWorker prev (some st) alive =
          (if st.phase == "completed" then MWorkerState.completed
           else if st.phase == "failed" then MWorkerState.failed
           else if !alive then MWorkerState.failed
           else MWorkerState.running)) := by
  constructor
  · intro r h1 h2
    have ht : pyTruthyStr st.blocked_reason = true := by
      simp [pyTruthyStr, h1, h2]
    simp [classifyWorker, ht]
  · intro hf
    simp [classifyWorker, hf]

/-- C10 witness: a dead worker whose snapshot says phase completed but
carries the non-empty blocked_reason stuck on conflicts is classified
BLOCKED. -/
theorem C10_blocked_reason_priority_witness :
    classifyWorker MWorkerState.running
      (some ⟨"completed", some "stuck on conflicts", none, none, none⟩) false =
      MWorkerState.blocked :=
  (C10_blocked_reason_priority MWorkerState.running
      ⟨"completed", some "stuck on conflicts", none, none, none⟩ false).1
    "stuck on conflicts" rfl (by decide)
